import Mathlib

/-!
Verification of the logwatch-ai analyzer (`src/logwatch-ai.py`).

Modelling conventions:

* Timestamps are integers counting seconds (sub-second precision and float
  rounding are abstracted away).  The program stores ISO-8601 strings
  produced by `datetime.isoformat()`; for that fixed format, lexicographic
  string comparison agrees with chronological comparison, so the string
  comparisons `req > cutoff_time` and `req > hour_ago` are modelled as
  integer comparisons.  `timedelta(days=1)` is 86400 seconds and
  `timedelta(hours=1)` is 3600 seconds.  The minimum-interval test
  `(now - last).total_seconds() / 60 < min_interval_minutes` divides
  exactly (no integer truncation), so it is written in the equivalent
  division-free form `now - last < 60 * min_interval_minutes`; the
  configured durations are modelled as integers.
* The rate-limit ledger file (`/var/log/logwatch-ai-ratelimit.json`) is
  modelled by `LedgerFile`: it can be missing, unparseable JSON (in which
  case `json.load` raises and the handler at lines 116-120 falls back to the
  default `{"requests": []}`), parseable JSON that lacks a well-formed
  `"requests"` list (in which case `rate_data["requests"]` at line 124
  raises an uncaught KeyError/TypeError), or a well-formed list of
  timestamps.
* An uncaught Python exception is modelled by `Except.error ()`.
* The OpenAI chat-completion call together with `json.loads` of its content
  (lines 267-281) is an external oracle, modelled as a function from the
  attempt index to `BackendOutcome`: either a parsed analysis record or an
  exception message.  `time.sleep` is modelled by recording the slept
  durations.
* Analysis records are Python dicts; the model keeps the fields the verified
  properties mention (severity, issues_found, summary, critical_issues,
  warnings, recommendations).
-/

/-- Configuration fields used by the rate limiter, the retry loop and the
alert gate (subset of `load_config`, lines 53-71). -/
structure Config where
  alert_threshold : String
  always_send_summary : Bool
  max_requests_per_hour : ℕ
  max_requests_per_day : ℕ
  min_interval_minutes : ℤ
  max_retries : ℕ
  retry_delay_seconds : ℤ
deriving DecidableEq

/-- The built-in defaults of `load_config` (lines 63-70). -/
def default_config : Config :=
  { alert_threshold := "medium"
    always_send_summary := false
    max_requests_per_hour := 10
    max_requests_per_day := 50
    min_interval_minutes := 5
    max_retries := 3
    retry_delay_seconds := 30 }

/-- A triage-analysis record (the dict returned by `analyze_with_ai`),
restricted to the fields the verified properties mention. -/
structure Analysis where
  severity : String
  issues_found : Bool
  summary : String
  critical_issues : List String
  warnings : List String
  recommendations : List String
deriving DecidableEq

/-- The on-disk state of the rate-limit ledger file. -/
inductive LedgerFile where
  /-- The file does not exist (line 115 guard fails). -/
  | missing
  /-- The file exists but `json.load` raises; the exception is caught at
  lines 119-120 and the default `{"requests": []}` is kept. -/
  | unparseable
  /-- The file parses as JSON but is not an object carrying a `"requests"`
  list (for example `{}`): `rate_data["requests"]` at line 124 then raises
  an uncaught exception. -/
  | noRequests
  /-- The file parses as `{"requests": [...]}` with a list of valid
  ISO-8601 timestamps. -/
  | requests (ts : List ℤ)
deriving DecidableEq

/-- Line 123-127: drop ledger entries older than 24 hours
(`req > cutoff_time`, strict). -/
def cleanupOldEntries (now : ℤ) (reqs : List ℤ) : List ℤ :=
  reqs.filter (fun r => decide (now - 86400 < r))

/-- Lines 122-165 of `check_rate_limits`, on an already loaded request
list.  Returns the admit/deny decision together with the content written
back to the ledger file (`none` when no write happens: every denial
returns before the write at lines 158-163). -/
def check_rate_limits_core (cfg : Config) (reqs0 : List ℤ) (now : ℤ) :
    Bool × Option (List ℤ) :=
  let reqs := cleanupOldEntries now reqs0
  let tooSoon : Bool :=
    match reqs.getLast? with
    | some last => decide (now - last < 60 * cfg.min_interval_minutes)
    | none => false
  if tooSoon then (false, none)
  else if cfg.max_requests_per_hour ≤
      (reqs.filter (fun r => decide (now - 3600 < r))).length then (false, none)
  else if cfg.max_requests_per_day ≤ reqs.length then (false, none)
  else (true, some (reqs ++ [now]))

/-- `check_rate_limits` (lines 109-165): load the ledger file (lines
113-120), then run the checks.  `Except.error ()` models the uncaught
exception raised at line 124 when the file parses but has no well-formed
`"requests"` list. -/
def check_rate_limits (cfg : Config) (file : LedgerFile) (now : ℤ) :
    Except Unit (Bool × Option (List ℤ)) :=
  match file with
  | .missing => .ok (check_rate_limits_core cfg [] now)
  | .unparseable => .ok (check_rate_limits_core cfg [] now)
  | .noRequests => .error ()
  | .requests ts => .ok (check_rate_limits_core cfg ts now)

/-- Outcome of one attempted backend call: either a chat completion whose
content parsed as a JSON object (lines 267-281), or an exception of any
kind — network error, timeout, malformed JSON, non-object JSON — with its
message (caught at line 283). -/
inductive BackendOutcome where
  | ok (r : Analysis)
  | exn (msg : String)
deriving DecidableEq

/-- The dict returned immediately for an empty input digest
(lines 190-197). -/
def emptyInputResult : Analysis :=
  { severity := "error"
    issues_found := true
    summary := "分析するlogwatch出力がありません"
    critical_issues := []
    warnings := []
    recommendations := [] }

/-- The dict returned when the rate limiter denies (lines 200-209). -/
def rateLimitResult : Analysis :=
  { severity := "error"
    issues_found := true
    summary := "レート制限超過 - API過剰利用防止のためスキップしました"
    critical_issues := ["レート制限保護が作動しました"]
    warnings := []
    recommendations := ["次回実行まで待つか、設定でレート制限を調整してください"] }

/-- Python `str(last_error)`: `str(None)` is the string `"None"`. -/
def strOfLastError : Option String → String
  | some m => m
  | none => "None"

/-- The dict returned after all retries failed (lines 293-302). -/
def retriesFailedResult (cfg : Config) (lastError : Option String) : Analysis :=
  { severity := "error"
    issues_found := true
    summary := "AI analysis failed after " ++ toString cfg.max_retries ++
      " attempts: " ++ strOfLastError lastError
    critical_issues := ["Failed to analyze logs with AI after multiple retries"]
    warnings := []
    recommendations := ["Check OpenAI API key, connectivity, and rate limits"] }

/-- Observable outcome of the retry loop at lines 263-291. -/
structure AttemptsOut where
  /-- The parsed analysis of the first successful attempt, if any. -/
  result : Option Analysis
  /-- How many backend calls were made. -/
  calls : ℕ
  /-- The sleep durations passed to `time.sleep`, in order. -/
  sleeps : List ℤ
  /-- The value of `last_error` when the loop ends without success. -/
  last_error : Option String
deriving DecidableEq

/-- The retry loop `for attempt in range(max_retries)` (lines 263-291),
over the list of remaining attempt indices.  On an exception at attempt
`i`, `last_error` becomes the message and, when `i < max_retries - 1`,
`retry_delay_seconds * 2 ^ i` is slept before the next attempt
(line 288). -/
def runAttempts (cfg : Config) (backend : ℕ → BackendOutcome) :
    List ℕ → Option String → AttemptsOut
  | [], le => ⟨none, 0, [], le⟩
  | i :: rest, le =>
    match backend i with
    | .ok r => ⟨some r, 1, [], le⟩
    | .exn m =>
      let o := runAttempts cfg backend rest (some m)
      ⟨o.result, o.calls + 1,
        (if i < cfg.max_retries - 1 then [cfg.retry_delay_seconds * 2 ^ i]
         else []) ++ o.sleeps,
        o.last_error⟩

/-- Side-effect trace of one `analyze_with_ai` call. -/
structure AnalyzeTrace where
  /-- How many times `check_rate_limits` ran. -/
  rateChecks : ℕ
  /-- How many backend calls were made. -/
  backendCalls : ℕ
  /-- The sleep durations passed to `time.sleep`, in order. -/
  sleeps : List ℤ
deriving DecidableEq

/-- `analyze_with_ai` (lines 187-302): empty input returns at once
(lines 190-197); a rate-limit denial returns at once (lines 200-209);
otherwise the retry loop runs and either the first successful parse or the
all-retries-failed dict is returned.  `Except.error ()` models an uncaught
exception (possible only via `check_rate_limits` on a malformed ledger
file). -/
def analyze_with_ai (cfg : Config) (file : LedgerFile) (now : ℤ)
    (backend : ℕ → BackendOutcome) (log_content : String) :
    Except Unit (Analysis × AnalyzeTrace) :=
  if log_content = "" then .ok (emptyInputResult, ⟨0, 0, []⟩)
  else
    match check_rate_limits cfg file now with
    | .error e => .error e
    | .ok (false, _) => .ok (rateLimitResult, ⟨1, 0, []⟩)
    | .ok (true, _) =>
      let o := runAttempts cfg backend (List.range cfg.max_retries) none
      match o.result with
      | some r => .ok (r, ⟨1, o.calls, o.sleeps⟩)
      | none => .ok (retriesFailedResult cfg o.last_error, ⟨1, o.calls, o.sleeps⟩)

/-- The severity ranking table of `should_send_alert` (lines 312-319). -/
def severity_levels : List (String × ℕ) :=
  [("none", 0), ("low", 1), ("medium", 2), ("high", 3),
   ("critical", 4), ("error", 4)]

/-- Python `severity_levels.get(s, d)`. -/
def getLevel (s : String) (d : ℕ) : ℕ :=
  (List.lookup s severity_levels).getD d

/-- `should_send_alert` (lines 304-321). -/
def should_send_alert (cfg : Config) (analysis : Analysis) : Bool :=
  if cfg.always_send_summary then true
  else decide (getLevel cfg.alert_threshold 2 ≤ getLevel analysis.severity 0)

/-- Iterate the rate limiter over a sequence of evaluation times, starting
from a well-formed ledger file: an acceptance replaces the file by the
written content, a denial leaves it untouched.  Returns the final file
content and the number of accepted admissions. -/
def runLedger (cfg : Config) (file : List ℤ) : List ℤ → List ℤ × ℕ
  | [] => (file, 0)
  | now :: rest =>
    match check_rate_limits_core cfg file now with
    | (true, some w) =>
      let r := runLedger cfg w rest
      (r.1, r.2 + 1)
    | _ => runLedger cfg file rest

/-- C4: the alert gate honours the always-notify override and otherwise
compares ranks: with `always_send_summary` set it fires for every severity;
with it unset, for any threshold present in the ranking table it fires iff
the severity's rank (unknown severities ranking 0) is at least the
threshold's rank. -/
theorem claim_C4_alert_gate (cfg : Config) (a : Analysis) :
    (cfg.always_send_summary = true → should_send_alert cfg a = true) ∧
    (cfg.always_send_summary = false →
      ∀ r : ℕ, List.lookup cfg.alert_threshold severity_levels = some r →
        (should_send_alert cfg a = true ↔ r ≤ getLevel a.severity 0)) := by
  constructor
  · intro h
    simp [should_send_alert, h]
  · intro h r hr
    simp [should_send_alert, h, getLevel, hr]

/-- Witness for C4: with the default configuration (threshold "medium",
rank 2) an analysis of severity "high" (rank 3) triggers an alert. -/
theorem claim_C4_alert_gate_witness :
    should_send_alert default_config ⟨"high", true, "s", [], [], []⟩ = true :=
  ((claim_C4_alert_gate default_config ⟨"high", true, "s", [], [], []⟩).2
    rfl 2 rfl).mpr (by decide)

/-- C6: the alert gate is rank-monotonic — for a fixed configuration, if a
lower-or-equal-ranked severity triggers an alert then so does any
higher-ranked one. -/
theorem claim_C6_alert_gate_monotone (cfg : Config) (a1 a2 : Analysis)
    (hle : getLevel a1.severity 0 ≤ getLevel a2.severity 0)
    (h1 : should_send_alert cfg a1 = true) :
    should_send_alert cfg a2 = true := by
  cases hc : cfg.always_send_summary with
  | true => simp [should_send_alert, hc]
  | false =>
    simp [should_send_alert, hc] at h1 ⊢
    exact le_trans h1 hle

/-- Witness for C6: "medium" triggers under the default configuration and
ranks below "critical", so "critical" triggers as well. -/
theorem claim_C6_alert_gate_monotone_witness :
    should_send_alert default_config ⟨"critical", true, "s", [], [], []⟩ = true :=
  claim_C6_alert_gate_monotone default_config
    ⟨"medium", true, "s", [], [], []⟩ ⟨"critical", true, "s", [], [], []⟩
    (by decide) (by decide)

/-- C10: with the always-notify override unset, a threshold string absent
from the ranking table behaves exactly like "medium": the gate fires iff
the severity rank is at least 2 (the `.get(threshold, 2)` default at
line 321). -/
theorem claim_C10_unknown_threshold (cfg : Config) (a : Analysis)
    (ha : cfg.always_send_summary = false)
    (ht : List.lookup cfg.alert_threshold severity_levels = none) :
    should_send_alert cfg a = true ↔ 2 ≤ getLevel a.severity 0 := by
  simp [should_send_alert, ha, getLevel, ht]

/-- Witness for C10: with the unknown threshold "bogus", severity "medium"
(rank 2) triggers an alert. -/
theorem claim_C10_unknown_threshold_witness :
    should_send_alert { default_config with alert_threshold := "bogus" }
      ⟨"medium", true, "s", [], [], []⟩ = true :=
  (claim_C10_unknown_threshold
    { default_config with alert_threshold := "bogus" }
    ⟨"medium", true, "s", [], [], []⟩ rfl rfl).mpr (by decide)

/-- C9: on the empty input digest, `analyze_with_ai` returns immediately
with the fixed error record — severity "error", issues_found true — having
run zero rate-limit checks, zero backend calls and zero sleeps. -/
theorem claim_C9_empty_input (cfg : Config) (file : LedgerFile) (now : ℤ)
    (backend : ℕ → BackendOutcome) :
    analyze_with_ai cfg file now backend "" =
      .ok (emptyInputResult, ⟨0, 0, []⟩) ∧
    emptyInputResult.severity = "error" ∧
    emptyInputResult.issues_found = true := by
  refine ⟨?_, rfl, rfl⟩
  simp [analyze_with_ai]

/-- Every run of the rate-limit checks either denies writing nothing, or
accepts writing the pruned ledger with the current time appended. -/
theorem check_rate_limits_core_cases (cfg : Config) (reqs : List ℤ) (now : ℤ) :
    check_rate_limits_core cfg reqs now = (false, none) ∨
    check_rate_limits_core cfg reqs now =
      (true, some (cleanupOldEntries now reqs ++ [now])) := by
  simp only [check_rate_limits_core]
  split
  · exact Or.inl rfl
  · split
    · exact Or.inl rfl
    · split
      · exact Or.inl rfl
      · exact Or.inr rfl

/-- C2: a denial performs no ledger write at all, and an acceptance writes
exactly the pruned ledger with the single new timestamp `now` appended
before returning. -/
theorem claim_C2_effect_only_on_accept (cfg : Config) (reqs : List ℤ)
    (now : ℤ) :
    check_rate_limits_core cfg reqs now = (false, none) ∨
    check_rate_limits_core cfg reqs now =
      (true, some (cleanupOldEntries now reqs ++ [now])) :=
  check_rate_limits_core_cases cfg reqs now

/-- Counterexample for C7: a ledger file that parses as JSON but carries no
well-formed requests list (for example the document `{}`) raises an
uncaught exception at line 124 instead of being treated as an empty
history — unlike a missing file, which is accepted as empty history. -/
theorem claim_C7_counterexample :
    check_rate_limits default_config .noRequests 0 = .error () ∧
    check_rate_limits default_config .missing 0 = .ok (true, some [0]) :=
  ⟨rfl, rfl⟩

/-- C7 (amended): a missing ledger file or an unparseable one is non-fatal
and treated exactly as an empty request history; a file that parses but
lacks the requests list instead raises. -/
theorem claim_C7_missing_or_unparseable (cfg : Config) (file : LedgerFile)
    (now : ℤ) (h : file = .missing ∨ file = .unparseable) :
    check_rate_limits cfg file now =
      check_rate_limits cfg (.requests []) now := by
  rcases h with h | h <;> subst h <;> rfl

/-- Witness for C7: the missing-file case at time 5. -/
theorem claim_C7_missing_or_unparseable_witness :
    check_rate_limits default_config .missing 5 =
      check_rate_limits default_config (.requests []) 5 :=
  claim_C7_missing_or_unparseable default_config .missing 5 (Or.inl rfl)

/-- Counterexample for C3: with `min_interval_minutes = 2000` (more than
the 24-hour retention horizon), a ledger whose last accepted entry is at
time 0 is admitted again at time 100000 although only 100000 seconds —
strictly less than 2000 minutes — have elapsed: the stale entry is pruned
before the interval check ever sees it. -/
theorem claim_C3_counterexample :
    (100000 : ℤ) - 0 < 60 * 2000 ∧
    (check_rate_limits_core
      { default_config with min_interval_minutes := 2000 } [0] 100000).1 =
      true := by
  decide

/-- C3 (amended): provided the minimum interval fits inside the 24-hour
retention horizon, a ledger whose last entry is at time `t` is denied
whenever strictly less than `min_interval_minutes` minutes have elapsed
since `t`, and is accepted exactly at the boundary given hourly and daily
headroom. -/
theorem claim_C3_min_interval_boundary (cfg : Config) (l : List ℤ)
    (t now : ℤ) (hcap : 60 * cfg.min_interval_minutes < 86400) :
    (now - t < 60 * cfg.min_interval_minutes →
      check_rate_limits_core cfg (l ++ [t]) now = (false, none)) ∧
    (now - t = 60 * cfg.min_interval_minutes →
      ((cleanupOldEntries now (l ++ [t])).filter
          (fun r => decide (now - 3600 < r))).length <
        cfg.max_requests_per_hour →
      (cleanupOldEntries now (l ++ [t])).length < cfg.max_requests_per_day →
      (check_rate_limits_core cfg (l ++ [t]) now).1 = true) := by
  constructor
  · intro h
    have hkeep : now - 86400 < t := by omega
    have hfilt : cleanupOldEntries now (l ++ [t]) =
        cleanupOldEntries now l ++ [t] := by
      simp [cleanupOldEntries, List.filter_append, hkeep]
    simp only [check_rate_limits_core, hfilt, List.getLast?_concat]
    simp [h]
  · intro h hhour hday
    have hkeep : now - 86400 < t := by omega
    have hfilt : cleanupOldEntries now (l ++ [t]) =
        cleanupOldEntries now l ++ [t] := by
      simp [cleanupOldEntries, List.filter_append, hkeep]
    rw [hfilt] at hhour hday
    have hns : ¬ (now - t < 60 * cfg.min_interval_minutes) := by omega
    simp only [check_rate_limits_core, hfilt, List.getLast?_concat]
    simp only [List.filter_append, List.length_append,
      List.length_singleton] at hhour hday
    simp [hns, Nat.not_le.mpr hhour, Nat.not_le.mpr hday]

/-- Witness for C3: with the default configuration (5-minute interval) and
a single entry at time 0, a new request at 60 seconds is denied and a new
request at exactly 300 seconds is accepted. -/
theorem claim_C3_min_interval_boundary_witness :
    check_rate_limits_core default_config [0] 60 = (false, none) ∧
    (check_rate_limits_core default_config [0] 300).1 = true :=
  ⟨(claim_C3_min_interval_boundary default_config [] 0 60 (by decide)).1
      (by decide),
   (claim_C3_min_interval_boundary default_config [] 0 300 (by decide)).2
      (by decide) (by decide) (by decide)⟩

/-- Every entry of a written ledger lies strictly inside the trailing
24 hours of the evaluation time. -/
theorem write_entries_recent (cfg : Config) (reqs : List ℤ) (now : ℤ)
    (w : List ℤ) (hw : (check_rate_limits_core cfg reqs now).2 = some w) :
    ∀ r ∈ w, now - 86400 < r := by
  rcases check_rate_limits_core_cases cfg reqs now with h | h
  · rw [h] at hw
    cases hw
  · rw [h] at hw
    cases hw
    intro r hr
    rcases List.mem_append.mp hr with hr | hr
    · exact of_decide_eq_true (List.mem_filter.mp hr).2
    · rcases List.mem_singleton.mp hr with rfl
      omega

/-- An accepted admission grows the ledger by at most one entry. -/
theorem write_length_le (cfg : Config) (reqs : List ℤ) (now : ℤ)
    (w : List ℤ) (hw : (check_rate_limits_core cfg reqs now).2 = some w) :
    w.length ≤ reqs.length + 1 := by
  rcases check_rate_limits_core_cases cfg reqs now with h | h
  · rw [h] at hw
    cases hw
  · rw [h] at hw
    cases hw
    have := List.length_filter_le (fun r => decide (now - 86400 < r)) reqs
    simp [cleanupOldEntries]
    omega

/-- Along any sequence of evaluations the ledger length never exceeds the
starting length plus the number of accepted admissions. -/
theorem runLedger_length_le (cfg : Config) :
    ∀ (times : List ℤ) (file : List ℤ),
      (runLedger cfg file times).1.length ≤
        file.length + (runLedger cfg file times).2
  | [], file => by simp [runLedger]
  | now :: rest, file => by
    rcases hcase : check_rate_limits_core cfg file now with ⟨b, w⟩
    rcases check_rate_limits_core_cases cfg file now with h | h <;>
      rw [hcase] at h <;> cases h
    · simpa [runLedger, hcase] using runLedger_length_le cfg rest file
    · have h1 := runLedger_length_le cfg rest
        (cleanupOldEntries now file ++ [now])
      have h2 := write_length_le cfg file now
        (cleanupOldEntries now file ++ [now]) (by rw [hcase])
      simp only [runLedger, hcase]
      simp at h1 h2 ⊢
      omega

/-- C8: retention invariant — every timestamp the rate limiter writes back
lies within the trailing 24 hours of the evaluation time, and starting
from an empty ledger, after any sequence of evaluations with N accepted
admissions the ledger holds at most N entries. -/
theorem claim_C8_retention :
    (∀ (cfg : Config) (reqs : List ℤ) (now : ℤ) (w : List ℤ),
      (check_rate_limits_core cfg reqs now).2 = some w →
      ∀ r ∈ w, now - 86400 < r) ∧
    (∀ (cfg : Config) (times : List ℤ),
      (runLedger cfg [] times).1.length ≤ (runLedger cfg [] times).2) := by
  refine ⟨write_entries_recent, fun cfg times => ?_⟩
  simpa using runLedger_length_le cfg times []

/-- Witness for C8: the acceptance at time 0 writes the ledger `[0]`,
whose single entry is within 24 hours, and three evaluations at times
0, 60 and 300 accept twice and leave a two-entry ledger. -/
theorem claim_C8_retention_witness :
    ((0 : ℤ) - 86400 < 0) ∧
    (runLedger default_config [] [0, 60, 300]).1.length ≤
      (runLedger default_config [] [0, 60, 300]).2 :=
  ⟨claim_C8_retention.1 default_config [] 0 [0] rfl 0 (by decide),
   claim_C8_retention.2 default_config [0, 60, 300]⟩

/-- If the retry loop ends with a parsed result, some attempt in the list
returned it. -/
theorem runAttempts_result_ok (cfg : Config) (backend : ℕ → BackendOutcome) :
    ∀ (l : List ℕ) (le : Option String) (r : Analysis),
      (runAttempts cfg backend l le).result = some r →
      ∃ i ∈ l, backend i = .ok r
  | [], le, r => by simp [runAttempts]
  | i :: rest, le, r => by
    cases hb : backend i with
    | ok r0 =>
      simp only [runAttempts, hb, Option.some.injEq]
      rintro rfl
      exact ⟨i, List.mem_cons_self i rest, hb⟩
    | exn m =>
      intro h
      simp only [runAttempts, hb] at h
      obtain ⟨j, hj, hbj⟩ := runAttempts_result_ok cfg backend rest (some m) r h
      exact ⟨j, List.mem_cons_of_mem _ hj, hbj⟩

/-- The value of `last_error` after failing every attempt of `l`, starting
from `le`. -/
def lastErrorAfter (msgs : ℕ → String) (l : List ℕ) (le : Option String) :
    Option String :=
  match l.getLast? with
  | some j => some (msgs j)
  | none => le

theorem lastErrorAfter_cons (msgs : ℕ → String) (i : ℕ) (rest : List ℕ)
    (le : Option String) :
    lastErrorAfter msgs (i :: rest) le =
      lastErrorAfter msgs rest (some (msgs i)) := by
  cases rest with
  | nil => rfl
  | cons x xs =>
    unfold lastErrorAfter
    rw [List.getLast?_cons_cons]
    obtain ⟨y, hy⟩ := Option.isSome_iff_exists.mp
      (List.getLast?_isSome.mpr (List.cons_ne_nil x xs))
    rw [hy]

/-- When every attempt raises, the retry loop makes one call per listed
attempt, sleeps the doubling backoff after every non-final attempt, and
ends with the last message as `last_error`. -/
theorem runAttempts_all_exn (cfg : Config) (msgs : ℕ → String) :
    ∀ (l : List ℕ) (le : Option String),
      runAttempts cfg (fun i => .exn (msgs i)) l le =
        ⟨none, l.length,
         (l.filter (fun i => decide (i < cfg.max_retries - 1))).map
           (fun i => cfg.retry_delay_seconds * 2 ^ i),
         lastErrorAfter msgs l le⟩
  | [], le => by simp [runAttempts, lastErrorAfter]
  | i :: rest, le => by
    rw [lastErrorAfter_cons]
    have ih := runAttempts_all_exn cfg msgs rest (some (msgs i))
    simp only [runAttempts, ih, List.filter_cons, List.length_cons]
    by_cases hi : i < cfg.max_retries - 1 <;> simp [hi]

/-- The list of attempt indices ends with the last attempt. -/
theorem range_getLast?_of_pos (n : ℕ) (hn : 0 < n) :
    (List.range n).getLast? = some (n - 1) := by
  obtain ⟨m, rfl⟩ := Nat.exists_eq_succ_of_ne_zero (Nat.pos_iff_ne_zero.mp hn)
  rw [List.range_succ, List.getLast?_concat]
  simp

/-- The attempts followed by a backoff sleep are exactly all but the
last. -/
theorem range_filter_lt_pred (n : ℕ) :
    (List.range n).filter (fun i => decide (i < n - 1)) =
      List.range (n - 1) := by
  cases n with
  | zero => rfl
  | succ m =>
    rw [List.range_succ, List.filter_append]
    simp only [Nat.succ_sub_one]
    rw [List.filter_eq_self.mpr]
    · simp
    · intro a ha
      simp [List.mem_range.mp ha]

/-- Counterexample for C1: with a ledger file that parses but has no
well-formed requests list, the uncaught exception from the rate-limit
check propagates out of `analyze_with_ai` — the classifier does raise. -/
theorem claim_C1_counterexample :
    analyze_with_ai default_config .noRequests 0 (fun _ => .exn "boom")
      "log" = .error () := rfl

/-- C1 (amended): for every input text and every ledger file other than
the parseable-but-malformed shape, `analyze_with_ai` never raises, and
apart from a successful backend parse every path returns a record of
severity "error". -/
theorem claim_C1_no_raise (cfg : Config) (file : LedgerFile) (now : ℤ)
    (backend : ℕ → BackendOutcome) (log_content : String)
    (hfile : file ≠ .noRequests) :
    ∃ a tr, analyze_with_ai cfg file now backend log_content = .ok (a, tr) ∧
      (a.severity = "error" ∨
        ∃ i, i < cfg.max_retries ∧ backend i = .ok a) := by
  by_cases hc : log_content = ""
  · exact ⟨emptyInputResult, ⟨0, 0, []⟩, by simp [analyze_with_ai, hc],
      Or.inl rfl⟩
  · obtain ⟨⟨b, w⟩, hp⟩ : ∃ p, check_rate_limits cfg file now = .ok p := by
      cases file with
      | missing => exact ⟨_, rfl⟩
      | unparseable => exact ⟨_, rfl⟩
      | noRequests => exact absurd rfl hfile
      | requests ts => exact ⟨_, rfl⟩
    cases b with
    | false =>
      exact ⟨rateLimitResult, ⟨1, 0, []⟩,
        by simp [analyze_with_ai, hc, hp], Or.inl rfl⟩
    | true =>
      set o := runAttempts cfg backend (List.range cfg.max_retries) none
        with ho
      cases hres : o.result with
      | some r =>
        refine ⟨r, ⟨1, o.calls, o.sleeps⟩,
          by simp [analyze_with_ai, hc, hp, ← ho, hres], ?_⟩
        obtain ⟨i, hi, hbi⟩ :=
          runAttempts_result_ok cfg backend _ none r (ho ▸ hres)
        exact Or.inr ⟨i, List.mem_range.mp hi, hbi⟩
      | none =>
        exact ⟨retriesFailedResult cfg o.last_error, ⟨1, o.calls, o.sleeps⟩,
          by simp [analyze_with_ai, hc, hp, ← ho, hres], Or.inl rfl⟩

/-- Witness for C1: a missing ledger file, a permanently failing backend
and a non-empty digest still return a result instead of raising. -/
theorem claim_C1_no_raise_witness :
    ∃ a tr,
      analyze_with_ai default_config .missing 0 (fun _ => .exn "boom")
        "log" = .ok (a, tr) ∧
      (a.severity = "error" ∨
        ∃ i, i < default_config.max_retries ∧
          (fun _ : ℕ => BackendOutcome.exn "boom") i = .ok a) :=
  claim_C1_no_raise default_config .missing 0 (fun _ => .exn "boom") "log"
    (by decide)

/-- C5: when every backend attempt raises, the classifier makes exactly
`max_retries` backend calls, sleeps `retry_delay_seconds * 2 ^ i` after
attempt `i` for every non-final attempt, and returns a severity-"error"
record whose summary embeds the last error message. -/
theorem claim_C5_retry_policy (cfg : Config) (file : LedgerFile) (now : ℤ)
    (msgs : ℕ → String) (log_content : String)
    (hc : log_content ≠ "")
    (hrl : ∃ w, check_rate_limits cfg file now = .ok (true, w))
    (hn : 0 < cfg.max_retries) :
    analyze_with_ai cfg file now (fun i => .exn (msgs i)) log_content =
      .ok (retriesFailedResult cfg (some (msgs (cfg.max_retries - 1))),
        ⟨1, cfg.max_retries,
         (List.range (cfg.max_retries - 1)).map
           (fun i => cfg.retry_delay_seconds * 2 ^ i)⟩) ∧
    (retriesFailedResult cfg (some (msgs (cfg.max_retries - 1)))).severity =
      "error" ∧
    (retriesFailedResult cfg (some (msgs (cfg.max_retries - 1)))).summary =
      "AI analysis failed after " ++ toString cfg.max_retries ++
        " attempts: " ++ msgs (cfg.max_retries - 1) := by
  obtain ⟨w, hp⟩ := hrl
  have hall := runAttempts_all_exn cfg msgs (List.range cfg.max_retries) none
  have hlast : lastErrorAfter msgs (List.range cfg.max_retries) none =
      some (msgs (cfg.max_retries - 1)) := by
    unfold lastErrorAfter
    rw [range_getLast?_of_pos cfg.max_retries hn]
  rw [hlast, range_filter_lt_pred, List.length_range] at hall
  refine ⟨?_, rfl, rfl⟩
  simp [analyze_with_ai, hc, hp, hall]

/-- Witness for C5: with the defaults (3 retries, 30-second base delay), a
backend failing with messages "e0", "e1", "e2" yields three calls, sleeps
of 30 and 60 seconds, and the error summary naming "e2". -/
theorem claim_C5_retry_policy_witness :
    analyze_with_ai default_config .missing 0
        (fun i => .exn ("e" ++ toString i)) "log" =
      .ok (retriesFailedResult default_config (some ("e" ++ toString 2)),
        ⟨1, 3, [30, 60]⟩) ∧
    (retriesFailedResult default_config (some ("e" ++ toString 2))).severity =
      "error" ∧
    (retriesFailedResult default_config (some ("e" ++ toString 2))).summary =
      "AI analysis failed after " ++ toString default_config.max_retries ++
        " attempts: " ++ ("e" ++ toString 2) :=
  claim_C5_retry_policy default_config .missing 0
    (fun i => "e" ++ toString i) "log" (by decide) ⟨some [0], rfl⟩ (by decide)
